import Mathlib

/-!
Verification development for the ios-control repository.

The Python sources under src/ios_control are shallowly embedded here:
pure functions become Lean functions, the exception taxonomy of
src/ios_control/exceptions.py becomes an error sum type, methods on the
IOSDevice class become functions on an explicit Session state, and each
external `subprocess.run(..., check=True)` invocation is abstracted by a
RunResult oracle describing its outcome (stdout on exit 0, a
CalledProcessError on non-zero exit, or a FileNotFoundError when the
binary is absent).  Python strings are Lean Strings; the handful of
Python `str` operations used by the code (`strip`, `split`, `lower`,
substring test) are re-implemented over `List Char` so that every
definition evaluates inside the kernel.
-/

/-- The exception taxonomy of src/ios_control/exceptions.py restricted to the
classes the device module actually raises: DeviceNotFoundError,
IOSConnectionError and UnsupportedOperationError, each carrying its message. -/
inductive IOSError where
  | deviceNotFound (msg : String)
  | connectionError (msg : String)
  | unsupportedOperation (msg : String)
deriving DecidableEq, Repr

/-- The message an exception was constructed with (Python str(e)). -/
def IOSError.message : IOSError → String
  | .deviceNotFound m => m
  | .connectionError m => m
  | .unsupportedOperation m => m

/-- Outcome of one `subprocess.run([...], check=True)` call: `ok stdout` for
exit status 0, `calledProcessError` for a non-zero exit (check=True raises
subprocess.CalledProcessError), `fileNotFound` when the binary is absent
(FileNotFoundError). -/
inductive RunResult where
  | ok (stdout : String)
  | calledProcessError
  | fileNotFound
deriving DecidableEq, Repr

/- ### Python string primitives, re-implemented over `List Char` -/

/-- Python `str.strip()` on a character list: drop whitespace from both ends. -/
def trimChars (l : List Char) : List Char :=
  ((l.dropWhile Char.isWhitespace).reverse.dropWhile Char.isWhitespace).reverse

/-- Python `str.strip()`. -/
def pyStrip (s : String) : String := ⟨trimChars s.toList⟩

/-- Python `str.lower()` (ASCII case folding). -/
def pyLower (s : String) : String := ⟨s.toList.map Char.toLower⟩

/-- Python `str.split(sep)` for a one-character separator: split on every
occurrence, keeping empty pieces; the empty string yields `[[]]`. -/
def pySplitChar (c : Char) : List Char → List (List Char)
  | [] => [[]]
  | a :: rest =>
    let r := pySplitChar c rest
    if a == c then [] :: r
    else
      match r with
      | h :: t => (a :: h) :: t
      | [] => [[a]]

/-- Python `str.split("\n")`. -/
def splitLines (s : String) : List String :=
  (pySplitChar '\n' s.toList).map (fun l => (⟨l⟩ : String))

/-- Does `hay` start with `needle`? (list-of-chars prefix test). -/
def startsWithL : List Char → List Char → Bool
  | [], _ => true
  | _ :: _, [] => false
  | a :: as, b :: bs => a == b && startsWithL as bs

/-- Python `needle in hay` for strings: contiguous substring test. -/
def hasSubL (needle : List Char) : List Char → Bool
  | [] => needle.isEmpty
  | b :: bs => startsWithL needle (b :: bs) || hasSubL needle bs

/-- Python `needle in hay` on Strings. -/
def pyContains (hay needle : String) : Bool := hasSubL needle.toList hay.toList

/-- Python `line.split(sep, 1)` for a one-character separator: `none` when the
separator is absent, otherwise the pieces before and after its first
occurrence. -/
def splitFirstChar (c : Char) : List Char → Option (List Char × List Char)
  | [] => none
  | a :: rest =>
    if a == c then some ([], rest)
    else (splitFirstChar c rest).map (fun p => (a :: p.1, p.2))

/-- Python `line.split(sep, 1)` for a multi-character separator (used with
`" - "` by list_apps): `none` when the separator does not occur. -/
def splitFirstSub (sep : List Char) : List Char → Option (List Char × List Char)
  | [] => if sep.isEmpty then some ([], []) else none
  | a :: rest =>
    if startsWithL sep (a :: rest) then some ([], (a :: rest).drop sep.length)
    else (splitFirstSub sep rest).map (fun p => (a :: p.1, p.2))

/- ### Device discovery: IOSDevice.list_devices (device.py lines 83-140) -/

/-- One entry of the list returned by IOSDevice.list_devices:
`{udid, name, ios_version}` (device.py lines 120-131). -/
structure DeviceRecord where
  udid : String
  name : String
  ios_version : String
deriving DecidableEq, Repr

/-- Oracle for the external binaries consulted during one discovery run:
the outcome of `idevice_id -l` and, per udid, the outcomes of
`ideviceinfo -u udid -k DeviceName` and `ideviceinfo -u udid -k
ProductVersion`. -/
structure DiscoveryEnv where
  idevice_id : RunResult
  nameOf : String → RunResult
  versionOf : String → RunResult

/-- device.py lines 96-97: `result.stdout.strip().split("\n")` filtered to
truthy (non-empty) entries. -/
def parse_device_ids (out : String) : List String :=
  (splitLines (pyStrip out)).filter (fun u => u != "")

/-- The body of the per-udid loop of list_devices (device.py lines 100-131):
`some record` when the iteration appends a record (metadata fetched, or a
placeholder after a CalledProcessError), `none` when a FileNotFoundError
escapes the inner try and aborts the loop.  The name lookup runs first; the
version lookup only runs if the name lookup exited 0. -/
def device_entry (env : DiscoveryEnv) (udid : String) : Option DeviceRecord :=
  match env.nameOf udid with
  | .fileNotFound => none
  | .calledProcessError => some ⟨udid, "Unknown Device", "Unknown"⟩
  | .ok nameOut =>
    match env.versionOf udid with
    | .fileNotFound => none
    | .calledProcessError => some ⟨udid, "Unknown Device", "Unknown"⟩
    | .ok verOut => some ⟨udid, pyStrip nameOut, pyStrip verOut⟩

/-- The whole loop: `none` as soon as one iteration aborts with
FileNotFoundError, otherwise the records in discovery order. -/
def collect_entries (env : DiscoveryEnv) : List String → Option (List DeviceRecord)
  | [] => some []
  | u :: rest =>
    match device_entry env u with
    | none => none
    | some r => (collect_entries env rest).map (fun l => r :: l)

/-- IOSDevice.list_devices (device.py lines 83-140).  A failing or missing
`idevice_id` yields `[]` (lines 135-140); a FileNotFoundError raised by a
metadata call inside the loop is caught by the same outer handler and also
yields `[]`. -/
def list_devices (env : DiscoveryEnv) : List DeviceRecord :=
  match env.idevice_id with
  | .calledProcessError => []
  | .fileNotFound => []
  | .ok out =>
    match collect_entries env (parse_device_ids out) with
    | none => []
    | some l => l

/- ### The device session: IOSDevice.__init__/connect/disconnect -/

/-- The mutable fields of an IOSDevice instance (device.py lines 33-35):
`self.udid`, `self._device_info`, `self._connected`. -/
structure Session where
  udid : Option String
  device_info : Option DeviceRecord
  connected : Bool
deriving DecidableEq, Repr

/-- Python truthiness of the Optional[str] field `self.udid`
(None and "" are both falsy). -/
def strOptTruthy : Option String → Bool
  | none => false
  | some s => s != ""

/-- The body of the `try:` block of IOSDevice.connect (device.py lines
48-63), before the wrapping `except Exception` handler: raises
DeviceNotFoundError when no device is discovered or the requested udid is
absent, otherwise returns the updated session. -/
def connect_raw (env : DiscoveryEnv) (s : Session) : Except IOSError Session :=
  match list_devices env with
  | [] => .error (.deviceNotFound "No iOS devices found")
  | d :: rest =>
    if strOptTruthy s.udid then
      match (d :: rest).find? (fun r => some r.udid == s.udid) with
      | none =>
        .error (.deviceNotFound
          ("Device with UDID " ++ s.udid.getD "" ++ " not found"))
      | some dev => .ok { s with device_info := some dev, connected := true }
    else
      .ok { udid := some d.udid, device_info := some d, connected := true }

/-- IOSDevice.connect (device.py lines 37-66) as observed by callers: the
`except Exception as e` handler on lines 65-66 catches every exception
raised inside the try block - including the DeviceNotFoundError the
method itself raised - and re-raises
`IOSConnectionError(f"Failed to connect to device: {str(e)}")`. -/
def connect (env : DiscoveryEnv) (s : Session) : Except IOSError Session :=
  match connect_raw env s with
  | .ok s' => .ok s'
  | .error e =>
    .error (.connectionError ("Failed to connect to device: " ++ e.message))

/-- IOSDevice.disconnect (device.py lines 68-71): sets `_connected = False`
and `_device_info = None`; `self.udid` is left as is. -/
def disconnect (s : Session) : Session :=
  { s with connected := false, device_info := none }

/- ### The UI hierarchy value model -/

/-- A JSON-like value, the shape `json.loads` can return for the UI
hierarchy dump (device.py line 578): strings, integers, booleans, null,
arrays and objects.  Objects are association lists with the keys unique,
as produced by a JSON parser.  (JSON floats are outside this model; every
claim about bounds concerns integers.) -/
inductive UIValue where
  | str (s : String)
  | int (n : Int)
  | bool (b : Bool)
  | null
  | list (items : List UIValue)
  | dict (fields : List (String × UIValue))

/-- Python truthiness of a JSON value: "" , 0, False, None, [] and {} are
falsy, everything else truthy. -/
def UIValue.truthy : UIValue → Bool
  | .str s => s != ""
  | .int n => n != 0
  | .bool b => b
  | .null => false
  | .list items => !items.isEmpty
  | .dict fields => !fields.isEmpty

/-- Python `element.get(key)`: the value stored under `key`, if present. -/
def dictGet : List (String × UIValue) → String → Option UIValue
  | [], _ => none
  | (k, v) :: rest, key => if k == key then some v else dictGet rest key

/-- Python `a or b`: `a` when truthy, else `b`. -/
def pyOr (a b : UIValue) : UIValue := if a.truthy then a else b

/-- device.py lines 617-621:
`element.get("text", "") or element.get("label", "") or element.get("name", "")`. -/
def elementText (fields : List (String × UIValue)) : UIValue :=
  pyOr ((dictGet fields "text").getD (.str ""))
    (pyOr ((dictGet fields "label").getD (.str ""))
      ((dictGet fields "name").getD (.str "")))

/-- device.py lines 627 and 632:
`element.get("bounds") or element.get("frame")` (default None). -/
def boundsVal (fields : List (String × UIValue)) : UIValue :=
  pyOr ((dictGet fields "bounds").getD .null) ((dictGet fields "frame").getD .null)

/-- device.py line 637:
`element.get("children", []) or element.get("elements", [])`. -/
def childColl (fields : List (String × UIValue)) : UIValue :=
  pyOr ((dictGet fields "children").getD (.list []))
    ((dictGet fields "elements").getD (.list []))

/-- A bounds component as Python arithmetic sees it: ints are ints, bools
are 0/1 (bool is an int subtype in Python); for any other value the
arithmetic of _get_center_coordinates raises TypeError, modelled as
`none`. -/
def getNum : UIValue → Option Int
  | .int n => some n
  | .bool b => some (if b then 1 else 0)
  | _ => none

/-- `getNum` through an optional lookup. -/
def getNumO (o : Option UIValue) : Option Int := o.bind getNum

/-- device.py lines 665-670: all four of x, y, width, height present. -/
def xywhPresent (b : List (String × UIValue)) : Bool :=
  (dictGet b "x").isSome && (dictGet b "y").isSome
    && (dictGet b "width").isSome && (dictGet b "height").isSome

/-- device.py lines 675-680: all four of left, top, right, bottom present. -/
def ltrbPresent (b : List (String × UIValue)) : Bool :=
  (dictGet b "left").isSome && (dictGet b "top").isSome
    && (dictGet b "right").isSome && (dictGet b "bottom").isSome

/-- IOSDevice._get_center_coordinates (device.py lines 653-692).  Python `//`
on ints is floor division, hence `Int.fdiv`.  `Except.error ()` models the
TypeError Python raises when a recognized format carries a non-numeric
component; every unrecognized shape falls through to `(100, 100)`
(line 692).  The list branch fires for any sequence of length >= 4 and
reads only its first four elements (lines 685-689). -/
def get_center_coordinates : UIValue → Except Unit (Int × Int)
  | .dict b =>
    if xywhPresent b then
      match getNumO (dictGet b "x"), getNumO (dictGet b "y"),
          getNumO (dictGet b "width"), getNumO (dictGet b "height") with
      | some x, some y, some w, some h =>
        .ok (x + Int.fdiv w 2, y + Int.fdiv h 2)
      | _, _, _, _ => .error ()
    else if ltrbPresent b then
      match getNumO (dictGet b "left"), getNumO (dictGet b "top"),
          getNumO (dictGet b "right"), getNumO (dictGet b "bottom") with
      | some l, some t, some r, some bo =>
        .ok (Int.fdiv (l + r) 2, Int.fdiv (t + bo) 2)
      | _, _, _, _ => .error ()
    else .ok (100, 100)
  | .list items =>
    if items.length ≥ 4 then
      match getNumO (items.get? 0), getNumO (items.get? 1),
          getNumO (items.get? 2), getNumO (items.get? 3) with
      | some a, some b2, some c, some d =>
        .ok (Int.fdiv (a + c) 2, Int.fdiv (b2 + d) 2)
      | _, _, _, _ => .error ()
    else .ok (100, 100)
  | _ => .ok (100, 100)

/-- Python `element_text == text` where `text` is a str: equal exactly when
`element_text` is the same str (values of other types never equal a str
relevant here). -/
def pyEqStr : UIValue → String → Bool
  | .str t, q => t == q
  | _, _ => false

/-- The per-node text/bounds check of search_recursive (device.py lines
616-634): the value returned from inside the two `if exact_match` arms,
`.ok none` when the node neither matches nor crashes, and `.error ()` when
partial matching calls `.lower()` on a truthy non-string text value
(AttributeError).  A matching node whose bounds value is falsy falls
through (no return statement runs). -/
def nodeProbe (q : String) (exact : Bool)
    (fields : List (String × UIValue)) : Except Unit (Option (Int × Int)) :=
  let etext := elementText fields
  if etext.truthy then
    if exact then
      if pyEqStr etext q then
        if (boundsVal fields).truthy then
          (get_center_coordinates (boundsVal fields)).map some
        else .ok none
      else .ok none
    else
      match etext with
      | .str t =>
        if pyContains (pyLower t) (pyLower q) then
          if (boundsVal fields).truthy then
            (get_center_coordinates (boundsVal fields)).map some
          else .ok none
        else .ok none
      | _ => .error ()
  else .ok none

/-- `dictGet` only returns values stored in the association list, so the
value found is smaller than the list. -/
theorem dictGet_sizeOf {fields : List (String × UIValue)} {key : String}
    {v : UIValue} (h : dictGet fields key = some v) : sizeOf v < sizeOf fields := by
  induction fields with
  | nil => simp [dictGet] at h
  | cons p rest ih =>
    obtain ⟨k, w⟩ := p
    by_cases hk : (k == key) = true
    · simp [dictGet, hk] at h
      subst h
      simp
      omega
    · simp [dictGet, hk] at h
      have := ih h
      simp
      omega

/-- Every `UIValue` has positive size. -/
theorem uivalue_sizeOf_pos (v : UIValue) : 1 ≤ sizeOf v := by
  cases v <;> simp <;> omega

/-- Every list has positive size. -/
theorem list_sizeOf_pos {α : Type} [SizeOf α] (l : List α) : 1 ≤ sizeOf l := by
  cases l <;> simp <;> omega

/-- The list the `for child in children` loop of search_recursive
effectively walks (device.py lines 637-641): the items when the children
collection is a JSON array; the empty list when it is a str or dict
(Python iterates their characters resp. keys, all strings, and
search_recursive returns None on every string).  For a truthy
non-iterable children value see `childIterBad`. -/
def childItems (fields : List (String × UIValue)) : List UIValue :=
  match childColl fields with
  | .list items => items
  | _ => []

/-- Does `for child in children` raise TypeError (device.py line 638)?
Exactly when the selected children collection is a non-iterable: an int, a
bool, or a stored None (str, dict and list are iterable). -/
def childIterBad (fields : List (String × UIValue)) : Bool :=
  match childColl fields with
  | .list _ => false
  | .str _ => false
  | .dict _ => false
  | _ => true

/-- When the children collection of a node is a list, that list is smaller
than the node. -/
theorem childColl_sizeOf {fields : List (String × UIValue)}
    {items : List UIValue} (h : childColl fields = .list items) :
    sizeOf items < 1 + sizeOf fields := by
  have hpos := list_sizeOf_pos fields
  unfold childColl pyOr at h
  split at h
  · -- the "children" value was selected
    rcases hg : dictGet fields "children" with _ | v
    · simp [hg] at h
      subst h
      simp
      omega
    · have := dictGet_sizeOf hg
      simp [hg] at h
      subst h
      simp at this
      omega
  · -- the "elements" value was selected
    rcases hg : dictGet fields "elements" with _ | v
    · simp [hg] at h
      subst h
      simp
      omega
    · have := dictGet_sizeOf hg
      simp [hg] at h
      subst h
      simp at this
      omega

/-- The effective children list of a node is smaller than the node. -/
theorem childItems_sizeOf (fields : List (String × UIValue)) :
    sizeOf (childItems fields) < 1 + sizeOf fields := by
  have hpos := list_sizeOf_pos fields
  unfold childItems
  rcases hc : childColl fields with _ | _ | _ | _ | items | _
  · simp
    omega
  · simp
    omega
  · simp
    omega
  · simp
    omega
  · have := childColl_sizeOf hc
    simp
    omega
  · simp
    omega

/-- The children list is no larger than the field list (convenient form
of childItems_sizeOf). -/
theorem childItems_le (fields : List (String × UIValue)) :
    sizeOf (childItems fields) ≤ sizeOf fields := by
  have := childItems_sizeOf fields
  omega

mutual

/-- IOSDevice._find_element_by_text's inner search_recursive (device.py
lines 614-649): at a dict node, probe text and bounds (lines 616-634);
on no hit, iterate the children collection (lines 637-641); at a list,
iterate the items (lines 643-647); anything else yields no match
(line 649).  Iterating a truthy non-iterable children value (int, bool,
None stored under the key) raises TypeError, modelled as `.error ()`;
iterating a str or dict visits only strings, which can never match. -/
def search (q : String) (exact : Bool) : UIValue → Except Unit (Option (Int × Int))
  | .dict fields =>
    (match nodeProbe q exact fields with
     | .error e => .error e
     | .ok (some c) => .ok (some c)
     | .ok none =>
       if childIterBad fields then .error ()
       else searchList q exact (childItems fields))
  | .list items => searchList q exact items
  | _ => .ok none
termination_by v => sizeOf v
decreasing_by
  all_goals simp_wf
  all_goals try simp_arith
  all_goals first
    | omega
    | exact childItems_le _

/-- The `for child in children` / `for item in element` loops: first
non-None result wins, exceptions propagate. -/
def searchList (q : String) (exact : Bool) : List UIValue → Except Unit (Option (Int × Int))
  | [] => .ok none
  | x :: xs =>
    match search q exact x with
    | .error e => .error e
    | .ok (some r) => .ok (some r)
    | .ok none => searchList q exact xs
termination_by l => sizeOf l
decreasing_by
  all_goals simp_wf
  all_goals first
    | simp_arith
    | omega

end

/- ### Specification-side vocabulary for the resolver (claims C2, C4) -/

mutual

/-- The dict nodes of a hierarchy in depth-first pre-order, using the same
children-collection selection as search_recursive: a node first, then the
subtrees of its children collection in order; a children value that is not
a list contributes nothing (iterating a str or dict visits only strings). -/
def preorder : UIValue → List (List (String × UIValue))
  | .dict fields => fields :: preorderList (childItems fields)
  | .list items => preorderList items
  | _ => []
termination_by v => sizeOf v
decreasing_by
  all_goals simp_wf
  all_goals try simp_arith
  all_goals first
    | omega
    | exact childItems_le _

/-- Pre-order of a forest: left to right. -/
def preorderList : List UIValue → List (List (String × UIValue))
  | [] => []
  | x :: xs => preorder x ++ preorderList xs
termination_by l => sizeOf l
decreasing_by
  all_goals simp_wf
  all_goals first
    | simp_arith
    | omega

end

/-- A truthy element text is a string; guarantees partial matching cannot
hit AttributeError on this node (device.py line 631). -/
def textOk (fields : List (String × UIValue)) : Bool :=
  match elementText fields with
  | .str _ => true
  | v => !v.truthy

/-- The bounds value of the node decodes without TypeError. -/
def centerOk (fields : List (String × UIValue)) : Bool :=
  match get_center_coordinates (boundsVal fields) with
  | .ok _ => true
  | .error _ => false

mutual

/-- Well-formed hierarchy: on every dict node, a truthy element text is a
string (so partial matching never hits AttributeError), the bounds value
decodes without TypeError, and the children collection is a list of
well-formed values (or a str/dict, which the loop iterates harmlessly) -
never a truthy non-iterable.  Every JSON hierarchy whose text fields are
strings, whose bounds components are integers and whose children live in
arrays is well-formed. -/
def WF : UIValue → Bool
  | .dict fields =>
    textOk fields && centerOk fields && !childIterBad fields
      && WFList (childItems fields)
  | .list items => WFList items
  | _ => true
termination_by v => sizeOf v
decreasing_by
  all_goals simp_wf
  all_goals try simp_arith
  all_goals first
    | omega
    | exact childItems_le _

/-- All members of a forest are well-formed. -/
def WFList : List UIValue → Bool
  | [] => true
  | x :: xs => WF x && WFList xs
termination_by l => sizeOf l
decreasing_by
  all_goals simp_wf
  all_goals first
    | simp_arith
    | omega

end

/-- The match rule of the claims, on the resolved element text of a node:
with exactMatch, case-sensitive equality with the query; otherwise the
lowered query occurs inside the lowered text.  A node counts as carrying
text only when its resolved text is a non-empty string. -/
def textMatches (q : String) (exact : Bool) : UIValue → Bool
  | .str t => (t != "") && (if exact then t == q else pyContains (pyLower t) (pyLower q))
  | _ => false

/-- The center the bounds decoder yields, when it does not raise. -/
def centerO (b : UIValue) : Option (Int × Int) :=
  match get_center_coordinates b with
  | .ok c => some c
  | .error _ => none

/-- What a single node contributes in the claims' vocabulary: its decoded
bounds center when its text matches and it carries a truthy bounds value,
nothing otherwise (in particular nothing - not (100,100) - when the bounds
value is absent). -/
def nodeHit (q : String) (exact : Bool)
    (fields : List (String × UIValue)) : Option (Int × Int) :=
  if textMatches q exact (elementText fields) && (boundsVal fields).truthy then
    centerO (boundsVal fields)
  else none

/- ### The remaining device operations (device.py lines 142-884) -/

/-- IOSDevice.get_device_info's line parser (device.py lines 164-168): a
line containing a colon is split at its first colon into key and value,
both stripped; other lines are skipped. -/
def parse_info_line (line : String) : Option (String × String) :=
  match splitFirstChar ':' line.toList with
  | none => none
  | some (k, v) => some (⟨trimChars k⟩, ⟨trimChars v⟩)

/-- Python dict assignment `info[key] = value`: overwrite in place when the
key exists, append otherwise. -/
def dictInsert (d : List (String × String)) (k v : String) : List (String × String) :=
  if d.any (fun p => p.1 == k) then
    d.map (fun p => if p.1 == k then (k, v) else p)
  else d ++ [(k, v)]

/-- One iteration of the parsing loop of get_device_info (device.py lines
165-168): a colon-bearing line updates the dict, any other line leaves it
unchanged. -/
def infoStep (d : List (String × String)) (line : String) : List (String × String) :=
  match parse_info_line line with
  | some kv => dictInsert d kv.1 kv.2
  | none => d

/-- The parsing loop of get_device_info (device.py lines 164-168): fold the
lines of the dump into the info dict. -/
def buildInfo (lines : List String) : List (String × String) :=
  lines.foldl infoStep []

/-- Lookup in the assembled dict (position-irrelevant view of the mapping). -/
def lookupStr (d : List (String × String)) (k : String) : Option String :=
  (d.find? (fun p => p.1 == k)).map (fun p => p.2)

/-- The claims' description of the parsed mapping: among the colon-bearing
lines, split at the first colon and stripped, the LAST line whose key is
`k` supplies the value. -/
def lastValue (lines : List String) (k : String) : Option String :=
  (((lines.filterMap parse_info_line).filter (fun p => p.1 == k)).getLast?).map
    (fun p => p.2)

/-- IOSDevice.get_device_info (device.py lines 142-175): requires a
connected session, runs `ideviceinfo -u udid` and parses its stdout;
a non-zero exit raises IOSConnectionError, a missing binary raises
UnsupportedOperationError. -/
def get_device_info (s : Session) (res : RunResult) :
    Except IOSError (List (String × String)) :=
  if s.connected = false then .error (.connectionError "Device not connected")
  else
    match res with
    | .ok out => .ok (buildInfo (splitLines out))
    | .calledProcessError => .error (.connectionError "Failed to get device info")
    | .fileNotFound => .error (.unsupportedOperation "libimobiledevice tools not installed")

/-- The shared shape of install_app / uninstall_app / reboot / screenshot
(device.py lines 177-330): connected gate, one external command, success
on exit 0, IOSConnectionError on non-zero exit, UnsupportedOperationError
when the binary is missing. -/
def run_simple (s : Session) (res : RunResult) (failMsg missingMsg : String) :
    Except IOSError Bool :=
  if s.connected = false then .error (.connectionError "Device not connected")
  else
    match res with
    | .ok _ => .ok true
    | .calledProcessError => .error (.connectionError failMsg)
    | .fileNotFound => .error (.unsupportedOperation missingMsg)

/-- IOSDevice.install_app (device.py lines 177-206). -/
def install_app (s : Session) (res : RunResult) : Except IOSError Bool :=
  run_simple s res "Failed to install app" "ideviceinstaller not installed"

/-- IOSDevice.uninstall_app (device.py lines 208-236). -/
def uninstall_app (s : Session) (res : RunResult) : Except IOSError Bool :=
  run_simple s res "Failed to uninstall app" "ideviceinstaller not installed"

/-- IOSDevice.reboot (device.py lines 275-300). -/
def reboot (s : Session) (res : RunResult) : Except IOSError Bool :=
  run_simple s res "Failed to reboot device" "idevicediagnostics not installed"

/-- IOSDevice.screenshot (device.py lines 302-330): returns the output path
on success. -/
def screenshot (s : Session) (output_path : String) (res : RunResult) :
    Except IOSError String :=
  if s.connected = false then .error (.connectionError "Device not connected")
  else
    match res with
    | .ok _ => .ok output_path
    | .calledProcessError => .error (.connectionError "Failed to take screenshot")
    | .fileNotFound => .error (.unsupportedOperation "idevicescreenshot not installed")

/-- One `{bundle_id, name}` entry of list_apps (device.py lines 260-266):
lines containing `" - "` are split at its first occurrence and stripped. -/
def parse_app_line (line : String) : Option (String × String) :=
  match splitFirstSub " - ".toList line.toList with
  | none => none
  | some (b, n) => some (⟨trimChars b⟩, ⟨trimChars n⟩)

/-- IOSDevice.list_apps (device.py lines 238-273). -/
def list_apps (s : Session) (res : RunResult) :
    Except IOSError (List (String × String)) :=
  if s.connected = false then .error (.connectionError "Device not connected")
  else
    match res with
    | .ok out => .ok ((splitLines out).filterMap parse_app_line)
    | .calledProcessError => .error (.connectionError "Failed to list apps")
    | .fileNotFound => .error (.unsupportedOperation "ideviceinstaller not installed")

/-- IOSDevice.tap (device.py lines 332-387): pymobiledevice3 first; on a
non-zero exit, retry via tidevice; if the retry also fails (non-zero exit
or missing binary) raise IOSConnectionError; if pymobiledevice3 itself is
absent raise UnsupportedOperationError without consulting tidevice. -/
def tap (s : Session) (x y : Int) (primary secondary : RunResult) :
    Except IOSError Bool :=
  if s.connected = false then .error (.connectionError "Device not connected")
  else
    match primary with
    | .ok _ => .ok true
    | .calledProcessError =>
      match secondary with
      | .ok _ => .ok true
      | _ =>
        .error (.connectionError
          ("Failed to tap at (" ++ toString x ++ ", " ++ toString y ++ ")"))
    | .fileNotFound =>
      .error (.unsupportedOperation
        "Neither pymobiledevice3 nor tidevice is available for UI automation")

/-- IOSDevice.swipe (device.py lines 389-461): same two-backend shape as tap. -/
def swipe (s : Session) (x1 y1 x2 y2 : Int) (primary secondary : RunResult) :
    Except IOSError Bool :=
  if s.connected = false then .error (.connectionError "Device not connected")
  else
    match primary with
    | .ok _ => .ok true
    | .calledProcessError =>
      match secondary with
      | .ok _ => .ok true
      | _ => .error (.connectionError "Failed to swipe")
    | .fileNotFound =>
      .error (.unsupportedOperation
        "Neither pymobiledevice3 nor tidevice is available for UI automation")

/-- IOSDevice.input_text (device.py lines 463-515): same two-backend shape. -/
def input_text (s : Session) (primary secondary : RunResult) :
    Except IOSError Bool :=
  if s.connected = false then .error (.connectionError "Device not connected")
  else
    match primary with
    | .ok _ => .ok true
    | .calledProcessError =>
      match secondary with
      | .ok _ => .ok true
      | _ => .error (.connectionError "Failed to input text")
    | .fileNotFound =>
      .error (.unsupportedOperation
        "Neither pymobiledevice3 nor tidevice is available for UI automation")

/-- IOSDevice.home_button (device.py lines 742-787): same two-backend shape. -/
def home_button (s : Session) (primary secondary : RunResult) :
    Except IOSError Bool :=
  if s.connected = false then .error (.connectionError "Device not connected")
  else
    match primary with
    | .ok _ => .ok true
    | .calledProcessError =>
      match secondary with
      | .ok _ => .ok true
      | _ => .error (.connectionError "Failed to press home button")
    | .fileNotFound =>
      .error (.unsupportedOperation "UI automation tools not available")

/-- IOSDevice.long_press (device.py lines 694-740): pymobiledevice3 only,
no secondary backend. -/
def long_press (s : Session) (x y : Int) (res : RunResult) :
    Except IOSError Bool :=
  if s.connected = false then .error (.connectionError "Device not connected")
  else
    match res with
    | .ok _ => .ok true
    | .calledProcessError =>
      .error (.connectionError
        ("Failed to long press at (" ++ toString x ++ ", " ++ toString y ++ ")"))
    | .fileNotFound =>
      .error (.unsupportedOperation "pymobiledevice3 not available for UI automation")

/-- IOSDevice.back_button (device.py lines 789-808): a fixed swipe from the
left edge; any exception the swipe raises is re-wrapped as
IOSConnectionError. -/
def back_button (s : Session) (primary secondary : RunResult) :
    Except IOSError Bool :=
  if s.connected = false then .error (.connectionError "Device not connected")
  else
    match swipe s 10 300 200 300 primary secondary with
    | .ok b => .ok b
    | .error e =>
      .error (.connectionError ("Failed to perform back gesture: " ++ e.message))

/-- IOSDevice.tap_by_text (device.py lines 517-549), with the already
fetched hierarchy as argument: resolve the text to coordinates and
delegate to tap; every exception inside the try block (including the
not-found case and whatever tap raises) is re-wrapped as
IOSConnectionError. -/
def tap_by_text (s : Session) (ui : UIValue) (q : String) (exact : Bool)
    (primary secondary : RunResult) : Except IOSError Bool :=
  if s.connected = false then .error (.connectionError "Device not connected")
  else
    match search q exact ui with
    | .error _ =>
      .error (.connectionError ("Failed to tap by text '" ++ q ++ "'"))
    | .ok none =>
      .error (.connectionError
        ("Failed to tap by text '" ++ q ++ "': Element with text '" ++ q
          ++ "' not found"))
    | .ok (some c) =>
      match tap s c.1 c.2 primary secondary with
      | .ok b => .ok b
      | .error e =>
        .error (.connectionError
          ("Failed to tap by text '" ++ q ++ "': " ++ e.message))

/-- One poll iteration of wait_for_element_by_text: found exactly when the
hierarchy fetch and the search both succeed with a hit; exceptions are
swallowed (device.py lines 832-844). -/
def poll_found (q : String) (exact : Bool) (ui : UIValue) : Bool :=
  match search q exact ui with
  | .ok (some _) => true
  | _ => false

/-- IOSDevice.wait_for_element_by_text (device.py lines 810-846), with the
sequence of hierarchy snapshots seen at the 0.5s polls during the timeout
window as argument: true as soon as one poll finds the text, false when
the window is exhausted. -/
def wait_for_element (s : Session) (polls : List UIValue) (q : String)
    (exact : Bool) : Except IOSError Bool :=
  if s.connected = false then .error (.connectionError "Device not connected")
  else .ok (polls.any (poll_found q exact))

/-- The fixed model-to-dimensions table of get_screen_size (device.py
lines 867-878). -/
def screen_sizes : List (String × (Int × Int)) :=
  [("iPhone16,2", (393, 852)), ("iPhone16,1", (393, 852)),
   ("iPhone15,5", (428, 926)), ("iPhone15,4", (390, 844)),
   ("iPhone14,3", (428, 926)), ("iPhone14,2", (390, 844)),
   ("iPhone13,4", (428, 926)), ("iPhone13,3", (390, 844)),
   ("iPad14,6", (1024, 1366)), ("iPad13,11", (1024, 1366))]

/-- IOSDevice.get_screen_size (device.py lines 848-884): look the
ProductType up in the table; any failure (including a failing info dump)
degrades to the default (375, 667). -/
def get_screen_size (s : Session) (res : RunResult) : Except IOSError (Int × Int) :=
  if s.connected = false then .error (.connectionError "Device not connected")
  else
    match get_device_info s res with
    | .error _ => .ok (375, 667)
    | .ok info =>
      let pt := (lookupStr info "ProductType").getD ""
      .ok (((screen_sizes.find? (fun e => e.1 == pt)).map (fun e => e.2)).getD (375, 667))

/- ### The session-level transition system (claim C10) -/

/-- One method call on the IOSDevice instance, together with the outcomes of
the external commands it would spawn. -/
inductive Op where
  | connectOp (env : DiscoveryEnv)
  | disconnectOp
  | getDeviceInfoOp (res : RunResult)
  | installAppOp (res : RunResult)
  | uninstallAppOp (res : RunResult)
  | listAppsOp (res : RunResult)
  | rebootOp (res : RunResult)
  | screenshotOp (path : String) (res : RunResult)
  | tapOp (x y : Int) (primary secondary : RunResult)
  | swipeOp (x1 y1 x2 y2 : Int) (primary secondary : RunResult)
  | inputTextOp (primary secondary : RunResult)
  | longPressOp (x y : Int) (res : RunResult)
  | homeButtonOp (primary secondary : RunResult)
  | backButtonOp (primary secondary : RunResult)
  | tapByTextOp (ui : UIValue) (q : String) (exact : Bool)
      (primary secondary : RunResult)
  | waitForElementOp (polls : List UIValue) (q : String) (exact : Bool)
  | getScreenSizeOp (res : RunResult)

/-- Is the operation one of the two lifecycle methods? -/
def Op.isLifecycle : Op → Bool
  | .connectOp _ => true
  | .disconnectOp => true
  | _ => false

/-- The session state after one method call.  connect assigns `self.udid`,
`self._device_info` and `self._connected` only on its success path
(device.py lines 59-62; every failure raises first), disconnect clears
flag and record (lines 68-71), and no other method of the class assigns
any of the three fields - their bodies only read `self.udid` and
`self._connected` (device.py lines 142-884). -/
def step : Op → Session → Session
  | .connectOp env, s =>
    match connect env s with
    | .ok s' => s'
    | .error _ => s
  | .disconnectOp, s => disconnect s
  | _, s => s



/-- The claims' session invariant: a connected session caches a device
record and holds a non-empty udid. -/
def SessionInv (s : Session) : Prop :=
  s.connected = true →
    (∃ r, s.device_info = some r) ∧ ∃ u, s.udid = some u ∧ u ≠ ""

/-- The record one discovered identifier contributes when no metadata
invocation hits a missing binary: the fetched name/version (stripped) when
both commands exit 0, the placeholder otherwise. -/
def entryOf (env : DiscoveryEnv) (u : String) : DeviceRecord :=
  match env.nameOf u, env.versionOf u with
  | .ok n, .ok v => ⟨u, pyStrip n, pyStrip v⟩
  | _, _ => ⟨u, "Unknown Device", "Unknown"⟩

/-- Fixture for claim C1: discovery finds exactly one device, whose udid is
"other-udid"; metadata commands succeed. -/
def env1 : DiscoveryEnv :=
  { idevice_id := .ok "other-udid"
    nameOf := fun _ => .ok "Other Device"
    versionOf := fun _ => .ok "1.0" }

/-- Fixture for claim C1: a fresh session requesting udid
"non-existent-udid". -/
def sess1 : Session :=
  { udid := some "non-existent-udid", device_info := none, connected := false }

/-- Fixture for claim C6: discovery finds one identifier "A", but the
metadata binary is absent (every ideviceinfo call raises
FileNotFoundError). -/
def env6 : DiscoveryEnv :=
  { idevice_id := .ok "A"
    nameOf := fun _ => .fileNotFound
    versionOf := fun _ => .fileNotFound }

/-- Fixture for claim C6: two identifiers; metadata exits 0 for "A" and
exits non-zero for everything else. -/
def env62 : DiscoveryEnv :=
  { idevice_id := .ok "A\nB"
    nameOf := fun u => if u == "A" then .ok "iPhone" else .calledProcessError
    versionOf := fun u => if u == "A" then .ok "17.0" else .calledProcessError }

/-- A connected session fixture for claim C5. -/
def sess5 : Session :=
  { udid := some "u", device_info := some ⟨"u", "n", "v"⟩, connected := true }

/-- A connected session fixture for claim C8. -/
def sess8 : Session :=
  { udid := some "u", device_info := some ⟨"u", "n", "v"⟩, connected := true }

/-- A fresh session fixture for claim C10. -/
def sess10 : Session := { udid := none, device_info := none, connected := false }

/-- Fixture hierarchy for claim C2: the root matches "Save" but carries no
bounds value; its first child matches with a frame, the second child also
matches with bounds.  The resolver must skip the root (without producing
(100,100) there), descend, and return the first child's center (12, 23). -/
def hier2 : UIValue :=
  .dict [("text", .str "Save"),
         ("children", .list [
            .dict [("label", .str "Save"),
                   ("frame", .dict [("x", .int 10), ("y", .int 20),
                                    ("width", .int 4), ("height", .int 6)])],
            .dict [("text", .str "Save"),
                   ("bounds", .dict [("x", .int 100), ("y", .int 200),
                                     ("width", .int 10), ("height", .int 10)])]])]

/- ### Lemmas about the resolver traversal -/

/-- On a node with string-or-falsy text and decodable bounds, the probe of
search_recursive computes exactly the claims' nodeHit. -/
theorem probe_eq {q : String} {exact : Bool} {fields : List (String × UIValue)}
    (htext : textOk fields = true) (hcenter : centerOk fields = true) :
    nodeProbe q exact fields = .ok (nodeHit q exact fields) := by
  unfold textOk at htext
  unfold centerOk at hcenter
  unfold nodeProbe nodeHit
  rcases hcen : get_center_coordinates (boundsVal fields) with u | c <;>
    rw [hcen] at hcenter
  · simp at hcenter
  · rcases het : elementText fields with t | n | b | _ | items | fs <;>
      rw [het] at htext
    · cases exact
      · by_cases ht0 : t = ""
        · subst ht0
          simp [UIValue.truthy, textMatches]
        · have htr : UIValue.truthy (UIValue.str t) = true := by
            simp [UIValue.truthy, ht0]
          by_cases hsub : pyContains (pyLower t) (pyLower q) = true <;>
            by_cases hb : (boundsVal fields).truthy = true <;>
            simp [htr, pyEqStr, textMatches, centerO, ht0, hsub, hb, hcen, Except.map]
      · by_cases ht0 : t = ""
        · subst ht0
          simp [UIValue.truthy, textMatches]
        · have htr : UIValue.truthy (UIValue.str t) = true := by
            simp [UIValue.truthy, ht0]
          by_cases heq : t = q
          · subst heq
            by_cases hb : (boundsVal fields).truthy = true <;>
              simp [htr, pyEqStr, textMatches, centerO, ht0, hb, hcen, Except.map]
          · by_cases hb : (boundsVal fields).truthy = true <;>
              simp [htr, pyEqStr, textMatches, centerO, ht0, heq, hb, hcen, Except.map]
    · simp [UIValue.truthy] at htext
      simp [UIValue.truthy, textMatches, htext]
    · simp [UIValue.truthy] at htext
      simp [UIValue.truthy, textMatches, htext]
    · simp [UIValue.truthy, textMatches]
    · simp [UIValue.truthy] at htext
      simp [UIValue.truthy, textMatches, htext]
    · simp [UIValue.truthy] at htext
      simp [UIValue.truthy, textMatches, htext]

/-- Strong induction on size: on well-formed input, search_recursive
computes the first nodeHit over the depth-first pre-order node list. -/
theorem search_aux (q : String) (exact : Bool) :
    ∀ n : Nat,
      (∀ v : UIValue, sizeOf v ≤ n → WF v = true →
        search q exact v = .ok ((preorder v).findSome? (nodeHit q exact)))
      ∧ (∀ items : List UIValue, sizeOf items ≤ n → WFList items = true →
        searchList q exact items = .ok ((preorderList items).findSome? (nodeHit q exact))) := by
  intro n
  induction n with
  | zero =>
    constructor
    · intro v hv _
      have := uivalue_sizeOf_pos v
      omega
    · intro items hi _
      have := list_sizeOf_pos items
      omega
  | succ n ih =>
    constructor
    · intro v hv hwf
      cases v with
      | str s => simp [search, preorder]
      | int n2 => simp [search, preorder]
      | bool b => simp [search, preorder]
      | null => simp [search, preorder]
      | list items =>
        simp only [WF] at hwf
        have hs : sizeOf items ≤ n := by
          have h2 : sizeOf (UIValue.list items) = 1 + sizeOf items := by simp
          omega
        simp only [search, preorder]
        exact (ih.2) items hs hwf
      | dict fields =>
        simp only [WF, Bool.and_eq_true] at hwf
        obtain ⟨⟨⟨ht, hc⟩, hib⟩, hwl⟩ := hwf
        have hs : sizeOf (childItems fields) ≤ n := by
          have h1 := childItems_sizeOf fields
          have h2 : sizeOf (UIValue.dict fields) = 1 + sizeOf fields := by simp
          omega
        have hib2 : childIterBad fields = false := by
          simpa using hib
        simp only [search]
        rw [probe_eq ht hc]
        rcases hhit : nodeHit q exact fields with _ | c
        · simp only [hib2, if_false, Bool.false_eq_true]
          rw [(ih.2) (childItems fields) hs hwl]
          simp [preorder, List.findSome?_cons, hhit]
        · simp [preorder, List.findSome?_cons, hhit]
    · intro items hi hwfl
      cases items with
      | nil => simp [searchList, preorderList]
      | cons x xs =>
        simp only [WFList, Bool.and_eq_true] at hwfl
        obtain ⟨hwx, hwxs⟩ := hwfl
        have hx : sizeOf x ≤ n := by
          have h2 : sizeOf (x :: xs) = 1 + sizeOf x + sizeOf xs := by simp
          have := list_sizeOf_pos xs
          omega
        have hxs : sizeOf xs ≤ n := by
          have h2 : sizeOf (x :: xs) = 1 + sizeOf x + sizeOf xs := by simp
          have := uivalue_sizeOf_pos x
          omega
        simp only [searchList]
        rw [(ih.1) x hx hwx]
        rcases hfx : (preorder x).findSome? (nodeHit q exact) with _ | r
        · rw [(ih.2) xs hxs hwxs]
          simp [preorderList, List.findSome?_append, hfx, Option.or]
        · simp [preorderList, List.findSome?_append, hfx, Option.or]

/- ### Lemmas about the substring test -/

/-- The character-list prefix test agrees with List.IsPrefix. -/
theorem startsWithL_iff (needle hay : List Char) :
    startsWithL needle hay = true ↔ needle <+: hay := by
  induction needle generalizing hay with
  | nil => simp [startsWithL, List.nil_prefix]
  | cons a as ih =>
    cases hay with
    | nil => simp [startsWithL, List.prefix_nil]
    | cons b bs => simp [startsWithL, List.cons_prefix_cons, ih]

/-- The character-list substring test agrees with List.IsInfix. -/
theorem hasSubL_iff (needle hay : List Char) :
    hasSubL needle hay = true ↔ needle <:+: hay := by
  induction hay with
  | nil => simp [hasSubL, List.infix_nil, List.isEmpty_iff]
  | cons b bs ih => simp [hasSubL, List.infix_cons_iff, startsWithL_iff, ih]

/-- Python `needle in hay` agrees with contiguous-substring containment. -/
theorem pyContains_iff (hay needle : String) :
    pyContains hay needle = true ↔ needle.toList <:+: hay.toList :=
  hasSubL_iff needle.toList hay.toList

/- ### Lemmas about the info-dict construction -/

/-- Looking a key up after a Python dict assignment: the assigned key now
maps to the new value, every other key is untouched. -/
theorem lookupStr_dictInsert (d : List (String × String)) (k' v k : String) :
    lookupStr (dictInsert d k' v) k = if k' == k then some v else lookupStr d k := by
  unfold dictInsert lookupStr
  by_cases hany : d.any (fun p => p.1 == k') = true
  · simp only [hany, if_true]
    rw [List.find?_map]
    by_cases hk : k' = k
    · subst hk
      have hpred : ((fun p : String × String => p.1 == k') ∘
          (fun p => if p.1 == k' then (k', v) else p))
          = fun p : String × String => p.1 == k' := by
        funext p
        by_cases h : p.1 = k' <;> simp [h]
      rw [hpred]
      rcases List.any_eq_true.mp hany with ⟨p, hp, hpk⟩
      rcases hf : List.find? (fun p : String × String => p.1 == k') d with _ | q
      · rw [List.find?_eq_none] at hf
        exact absurd hpk (hf p hp)
      · have hq := List.find?_some hf
        have he : q.1 = k' := by simpa using hq
        simp [he]
    · have hpred : ((fun p : String × String => p.1 == k) ∘
          (fun p => if p.1 == k' then (k', v) else p))
          = fun p : String × String => p.1 == k := by
        funext p
        by_cases h : p.1 = k'
        · simp [h, hk]
        · simp [h]
      rw [hpred]
      simp only [beq_iff_eq, hk, if_false]
      rcases hf : List.find? (fun p : String × String => p.1 == k) d with _ | q
      · rfl
      · have hq := List.find?_some hf
        have h1 : q.1 = k := by simpa using hq
        have h2 : ¬q.1 = k' := by
          rw [h1]
          intro hc
          exact hk hc.symm
        simp [Option.map, h2]
  · rw [if_neg hany, List.find?_append]
    by_cases hk : k' = k
    · subst hk
      have hf : List.find? (fun p : String × String => p.1 == k') d = none := by
        rw [List.find?_eq_none]
        intro p hp hpk
        exact hany (List.any_eq_true.mpr ⟨p, hp, hpk⟩)
      simp [hf, List.find?]
    · have hb : (k' == k) = false := by simp [hk]
      rcases hf : List.find? (fun p : String × String => p.1 == k) d with _ | q
      · simp [hf, List.find?, Option.or, hb]
      · simp [hf, Option.or, hb]

/-- getLast? through a cons: the tail's last element wins when it exists. -/
theorem getLast?_cons_or {α : Type} (a : α) (l : List α) :
    (a :: l).getLast? = (l.getLast?).or (some a) := by
  induction l generalizing a with
  | nil => rfl
  | cons b t ih =>
    rw [List.getLast?_cons_cons, ih b]
    rcases t.getLast? with _ | x <;> simp [Option.or]

/-- lastValue through a cons: later lines win over the head line. -/
theorem lastValue_cons (line : String) (rest : List String) (k : String) :
    lastValue (line :: rest) k =
      (lastValue rest k).or
        (match parse_info_line line with
         | some kv => if kv.1 == k then some kv.2 else none
         | none => none) := by
  unfold lastValue
  rcases hp : parse_info_line line with _ | kv
  · rcases h : ((rest.filterMap parse_info_line).filter (fun p => p.1 == k)).getLast?
      with _ | q <;>
      simp [List.filterMap_cons, hp, h, Option.or]
  · by_cases hk : (kv.1 == k) = true
    · rcases h : ((rest.filterMap parse_info_line).filter (fun p => p.1 == k)).getLast?
        with _ | q <;>
        simp [List.filterMap_cons, hp, List.filter_cons, hk, getLast?_cons_or, h, Option.or]
    · rcases h : ((rest.filterMap parse_info_line).filter (fun p => p.1 == k)).getLast?
        with _ | q <;>
        simp [List.filterMap_cons, hp, List.filter_cons, hk, h, Option.or]

/-- The parsing fold of get_device_info realizes last-value-wins lookup over
any starting dict. -/
theorem lookup_buildInfo_aux (lines : List String) :
    ∀ (acc : List (String × String)) (k : String),
      lookupStr (lines.foldl infoStep acc) k = (lastValue lines k).or (lookupStr acc k) := by
  induction lines with
  | nil =>
    intro acc k
    simp [lastValue, Option.or]
  | cons line rest ih =>
    intro acc k
    rw [List.foldl_cons, ih, lastValue_cons, Option.or_assoc]
    rcases hp : parse_info_line line with _ | kv
    · simp [infoStep, hp, Option.or]
    · have hstep : infoStep acc line = dictInsert acc kv.1 kv.2 := by
        simp [infoStep, hp]
      rw [hstep, lookupStr_dictInsert]
      by_cases hk : (kv.1 == k) = true <;> simp [hk, Option.or]

/- ### Lemmas about discovery and connect -/

/-- Every identifier surviving the discovery filter is non-empty. -/
theorem mem_parse_device_ids {out : String} {u : String}
    (h : u ∈ parse_device_ids out) : u ≠ "" := by
  unfold parse_device_ids at h
  have := (List.mem_filter.mp h).2
  simpa using this

/-- A loop iteration records the identifier it was run for. -/
theorem device_entry_udid {env : DiscoveryEnv} {u : String} {r : DeviceRecord}
    (h : device_entry env u = some r) : r.udid = u := by
  unfold device_entry at h
  rcases hn : env.nameOf u with o | _ | _ <;> rw [hn] at h
  · rcases hv : env.versionOf u with o2 | _ | _ <;> rw [hv] at h <;> simp at h <;>
      rw [← h]
  · simp at h
    rw [← h]
  · simp at h

/-- Every record produced by the loop carries one of the discovered
identifiers. -/
theorem collect_entries_udid {env : DiscoveryEnv} :
    ∀ {ids : List String} {l : List DeviceRecord},
      collect_entries env ids = some l → ∀ r ∈ l, r.udid ∈ ids := by
  intro ids
  induction ids with
  | nil =>
    intro l h r hr
    unfold collect_entries at h
    simp at h
    subst h
    simp at hr
  | cons u rest ih =>
    intro l h r hr
    unfold collect_entries at h
    rcases he : device_entry env u with _ | r0
    · rw [he] at h
      simp at h
    · rw [he] at h
      rcases hc : collect_entries env rest with _ | l0
      · rw [hc] at h
        simp at h
      · rw [hc] at h
        simp at h
        subst h
        rcases List.mem_cons.mp hr with h1 | h1
        · subst h1
          simp [device_entry_udid he]
        · exact List.mem_cons_of_mem _ (ih hc r h1)

/-- Every record list_devices returns has a non-empty udid. -/
theorem mem_list_devices_udid {env : DiscoveryEnv} {r : DeviceRecord}
    (h : r ∈ list_devices env) : r.udid ≠ "" := by
  unfold list_devices at h
  rcases hid : env.idevice_id with out | _ | _ <;> rw [hid] at h
  · have h' : r ∈ (match collect_entries env (parse_device_ids out) with
        | none => ([] : List DeviceRecord)
        | some l => l) := h
    rcases hc : collect_entries env (parse_device_ids out) with _ | l <;> rw [hc] at h'
    · simp at h'
    · exact mem_parse_device_ids (collect_entries_udid hc r h')
  · simp at h
  · simp at h

/-- A successful connect leaves the session connected, with a cached record
and a non-empty udid. -/
theorem connect_ok_fields {env : DiscoveryEnv} {s s' : Session}
    (h : connect env s = .ok s') :
    s'.connected = true ∧ (∃ r, s'.device_info = some r)
    ∧ ∃ u, s'.udid = some u ∧ u ≠ "" := by
  have hraw : connect_raw env s = .ok s' := by
    unfold connect at h
    rcases hr : connect_raw env s with e2 | s2 <;> rw [hr] at h
    · simp at h
    · have h2 : s2 = s' := by simpa using h
      rw [h2]
  unfold connect_raw at hraw
  split at hraw
  · simp at hraw
  · rename_i d rest hd
    split at hraw
    · rename_i ht
      split at hraw
      · simp at hraw
      · rename_i dev hf
        simp at hraw
        subst hraw
        rcases hu : s.udid with _ | u
        · rw [hu] at ht
          simp [strOptTruthy] at ht
        · rw [hu] at ht
          simp [strOptTruthy] at ht
          refine ⟨rfl, ⟨dev, rfl⟩, ⟨u, ?_, ht⟩⟩
          simp [hu]
    · simp at hraw
      subst hraw
      have hmem : d ∈ list_devices env := by
        rw [hd]
        exact List.mem_cons_self d rest
      exact ⟨rfl, ⟨d, rfl⟩, ⟨d.udid, rfl, mem_list_devices_udid hmem⟩⟩

/- ### The claims -/

/-- Claim C1 (code bug witness).  When the requested udid is absent from a
non-empty discovery list, the try-block of connect does raise
DeviceNotFoundError - but the method's own `except Exception` handler
(device.py lines 65-66) swallows it and re-raises IOSConnectionError, so
no caller can ever observe a device-not-found error from connect.  This
contradicts connect's docstring (lines 44-46), the repository's tests
(tests/test_device.py lines 62-79 expect `pytest.raises(DeviceNotFoundError)`)
and the dedicated `except DeviceNotFoundError` branch of the CLI
(cli.py lines 42-44), which is rendered unreachable.  Evaluated at the
concrete failing input: requested udid "non-existent-udid", discovery list
containing only "other-udid". -/
theorem C1_connect_wraps_device_not_found :
    connect_raw env1 sess1 =
      .error (.deviceNotFound "Device with UDID non-existent-udid not found")
    ∧ connect env1 sess1 =
      .error (.connectionError
        "Failed to connect to device: Device with UDID non-existent-udid not found")
    ∧ ∀ m, connect env1 sess1 ≠ .error (.deviceNotFound m) := by
  have h1 : connect_raw env1 sess1 =
      .error (.deviceNotFound "Device with UDID non-existent-udid not found") := by
    rfl
  have h2 : connect env1 sess1 =
      .error (.connectionError
        "Failed to connect to device: Device with UDID non-existent-udid not found") := by
    rfl
  refine ⟨h1, h2, ?_⟩
  intro m
  rw [h2]
  simp

/-- Claim C2.  On every well-formed hierarchy (text-bearing fields hold
strings, bounds values decode without TypeError, children collections are
arrays - the shapes a JSON UI dump takes), the resolver returns exactly
the first hit in depth-first pre-order: the decoded bounds center of the
first node whose text matches and whose bounds value is truthy.  A node
whose text matches but which carries no (truthy) bounds value contributes
nothing - in particular no (100,100) default - and traversal continues
through its children and subsequent siblings, as `preorder` lists the
entire subtree of every node. -/
theorem C2_resolver_first_preorder_match (v : UIValue) (q : String) (exact : Bool)
    (hwf : WF v = true) :
    search q exact v = .ok ((preorder v).findSome? (nodeHit q exact)) :=
  (search_aux q exact (sizeOf v)).1 v (le_refl _) hwf

/-- Witness for C2 at a concrete hierarchy whose root matches without
bounds and whose first child matches with bounds: the resolver skips the
root, descends, and returns the first child's center (12, 23). -/
theorem C2_resolver_first_preorder_match_witness :
    WF hier2 = true
    ∧ search "Save" true hier2 = .ok ((preorder hier2).findSome? (nodeHit "Save" true))
    ∧ search "Save" true hier2 = .ok (some (12, 23)) := by
  have hwf : WF hier2 = true := by
    simp [hier2, WF, WFList, textOk, centerOk, childIterBad, childItems, childColl,
      elementText, boundsVal, dictGet, pyOr, UIValue.truthy, get_center_coordinates,
      xywhPresent, ltrbPresent, getNumO, getNum]
  refine ⟨hwf, C2_resolver_first_preorder_match hier2 "Save" true hwf, ?_⟩
  simp [hier2, search, searchList, nodeProbe, elementText, boundsVal, childItems,
    childIterBad, childColl, dictGet, pyOr, UIValue.truthy, pyEqStr,
    get_center_coordinates, xywhPresent, ltrbPresent, getNumO, getNum, Except.map]

/-- Claim C3.  The bounds decoder resolves `{x,y,width,height}` dict bounds
to `(x + width // 2, y + height // 2)` and `{left,top,right,bottom}` dict
bounds to `((left+right) // 2, (top+bottom) // 2)`, with Python's floor
division (Int.fdiv), for all integer field values. -/
theorem C3_dict_bounds_center (x y w h l t r b : Int) :
    get_center_coordinates (.dict [("x", .int x), ("y", .int y),
        ("width", .int w), ("height", .int h)])
      = .ok (x + Int.fdiv w 2, y + Int.fdiv h 2)
    ∧ get_center_coordinates (.dict [("left", .int l), ("top", .int t),
        ("right", .int r), ("bottom", .int b)])
      = .ok (Int.fdiv (l + r) 2, Int.fdiv (t + b) 2) := by
  refine ⟨?_, ?_⟩ <;>
    simp [get_center_coordinates, xywhPresent, ltrbPresent, dictGet, getNumO, getNum]

/-- Claim C4.  On a node carrying text `t` (non-empty, per the spec's
"first non-empty of three candidate text fields") and decodable bounds,
the resolver accepts the node under exactMatch exactly when `t` equals the
query case-sensitively, and without exactMatch exactly when the lowered
query occurs as a contiguous substring of the lowered text; acceptance is
observable as the bounds center (2,2) being returned. -/
theorem C4_match_rule (t q : String) (ht : t ≠ "") :
    (search q true (.dict [("text", .str t),
        ("bounds", .dict [("x", .int 0), ("y", .int 0),
                          ("width", .int 4), ("height", .int 4)])])
      = .ok (some (2, 2)) ↔ t = q)
    ∧ (search q false (.dict [("text", .str t),
        ("bounds", .dict [("x", .int 0), ("y", .int 0),
                          ("width", .int 4), ("height", .int 4)])])
      = .ok (some (2, 2)) ↔ (pyLower q).toList <:+: (pyLower t).toList) := by
  constructor
  · by_cases heq : t = q
    · subst heq
      simp [search, searchList, nodeProbe, elementText, boundsVal, childItems,
        childIterBad, childColl, dictGet, pyOr, UIValue.truthy, pyEqStr,
        get_center_coordinates, xywhPresent, ltrbPresent, getNumO, getNum,
        Except.map, ht]
    · simp [search, searchList, nodeProbe, elementText, boundsVal, childItems,
        childIterBad, childColl, dictGet, pyOr, UIValue.truthy, pyEqStr,
        get_center_coordinates, xywhPresent, ltrbPresent, getNumO, getNum,
        Except.map, ht, heq]
  · rw [← pyContains_iff]
    by_cases hsub : pyContains (pyLower t) (pyLower q) = true <;>
      simp [search, searchList, nodeProbe, elementText, boundsVal, childItems,
        childIterBad, childColl, dictGet, pyOr, UIValue.truthy, pyEqStr,
        get_center_coordinates, xywhPresent, ltrbPresent, getNumO, getNum,
        Except.map, ht, hsub]

/-- Witness for C4 at text "Hello" and query "ell": rejected in exact mode
(proper substring), and the substring condition governs partial mode. -/
theorem C4_match_rule_witness :
    ("Hello" : String) ≠ ""
    ∧ ((search "ell" true (.dict [("text", .str "Hello"),
        ("bounds", .dict [("x", .int 0), ("y", .int 0),
                          ("width", .int 4), ("height", .int 4)])])
      = .ok (some (2, 2)) ↔ ("Hello" : String) = "ell")
    ∧ (search "ell" false (.dict [("text", .str "Hello"),
        ("bounds", .dict [("x", .int 0), ("y", .int 0),
                          ("width", .int 4), ("height", .int 4)])])
      = .ok (some (2, 2)) ↔ (pyLower "ell").toList <:+: (pyLower "Hello").toList)) :=
  ⟨by decide, C4_match_rule "Hello" "ell" (by decide)⟩

/-- Claim C5.  On a connected session, tap returns True whenever the
pymobiledevice3 invocation exits 0, or when it exits non-zero and the
tidevice retry exits 0; when both fail (retry exits non-zero or its binary
is missing) it raises IOSConnectionError; when the pymobiledevice3 binary
itself is absent it raises UnsupportedOperationError without consulting
the secondary backend. -/
theorem C5_tap_fallback_chain (s : Session) (x y : Int) (h : s.connected = true) :
    (∀ out sec, tap s x y (.ok out) sec = .ok true)
    ∧ (∀ out, tap s x y .calledProcessError (.ok out) = .ok true)
    ∧ (∃ m, tap s x y .calledProcessError .calledProcessError
        = .error (.connectionError m))
    ∧ (∃ m, tap s x y .calledProcessError .fileNotFound
        = .error (.connectionError m))
    ∧ (∀ sec, ∃ m, tap s x y .fileNotFound sec = .error (.unsupportedOperation m)) := by
  refine ⟨?_, ?_, ?_, ?_, ?_⟩ <;> simp [tap, h]

/-- Witness for C5 on a concrete connected session at (3, 4). -/
theorem C5_tap_fallback_chain_witness :
    sess5.connected = true
    ∧ (∃ m, tap sess5 3 4 .calledProcessError .calledProcessError
        = .error (.connectionError m))
    ∧ (∀ sec, ∃ m, tap sess5 3 4 .fileNotFound sec
        = .error (.unsupportedOperation m)) :=
  ⟨rfl, (C5_tap_fallback_chain sess5 3 4 rfl).2.2.1,
    (C5_tap_fallback_chain sess5 3 4 rfl).2.2.2.2⟩

/-- Counterexample to claim C6 as stated.  "An identifier whose metadata
lookup fails yields the placeholder record rather than a dropped entry"
is false when the metadata lookup fails because the ideviceinfo binary is
absent (FileNotFoundError): discovery finds the identifier "A", its
metadata lookup fails, and list_devices returns the empty list - the
entry is dropped (device.py lines 138-140 catch the FileNotFoundError
escaping the per-identifier loop and return []). -/
theorem C6_counterexample :
    env6.idevice_id = .ok "A" ∧ (parse_device_ids "A").length = 1
    ∧ list_devices env6 = [] := ⟨rfl, rfl, rfl⟩

/-- Claim C6 as amended.  Provided no metadata invocation fails with a
missing binary, listDevices returns exactly one record per discovered
identifier, in discovery order: the fetched metadata when both commands
exit 0, and the placeholder `{udid, "Unknown Device", "Unknown"}` when a
metadata command exits non-zero (a missing metadata binary instead aborts
the whole listing to []). -/
theorem C6_list_devices_amended (env : DiscoveryEnv) (out : String)
    (hid : env.idevice_id = .ok out)
    (hno : ∀ u, env.nameOf u ≠ .fileNotFound)
    (hvo : ∀ u, env.versionOf u ≠ .fileNotFound) :
    list_devices env = (parse_device_ids out).map (entryOf env) := by
  have key : ∀ ids : List String,
      collect_entries env ids = some (ids.map (entryOf env)) := by
    intro ids
    induction ids with
    | nil => rfl
    | cons u rest ih =>
      have h1 : device_entry env u = some (entryOf env u) := by
        unfold device_entry entryOf
        rcases hn : env.nameOf u with o | _ | _
        · rcases hv : env.versionOf u with o2 | _ | _
          · rfl
          · rfl
          · exact absurd hv (hvo u)
        · rfl
        · exact absurd hn (hno u)
      unfold collect_entries
      rw [h1, ih]
      rfl
  unfold list_devices
  rw [hid]
  simp [key]

/-- Witness for the amended C6, matching the spec's end-to-end example: two
identifiers, metadata succeeds for the first and exits non-zero for the
second; the result has length 2 with the placeholder second. -/
theorem C6_list_devices_amended_witness :
    env62.idevice_id = .ok "A\nB"
    ∧ (∀ u, env62.nameOf u ≠ .fileNotFound)
    ∧ (∀ u, env62.versionOf u ≠ .fileNotFound)
    ∧ list_devices env62 = (parse_device_ids "A\nB").map (entryOf env62)
    ∧ list_devices env62
        = [⟨"A", "iPhone", "17.0"⟩, ⟨"B", "Unknown Device", "Unknown"⟩] := by
  have hno : ∀ u, env62.nameOf u ≠ RunResult.fileNotFound := by
    intro u
    by_cases hu : u = "A" <;> simp [env62, hu]
  have hvo : ∀ u, env62.versionOf u ≠ RunResult.fileNotFound := by
    intro u
    by_cases hu : u = "A" <;> simp [env62, hu]
  have happ := C6_list_devices_amended env62 "A\nB" rfl hno hvo
  refine ⟨rfl, hno, hvo, happ, ?_⟩
  rw [happ]
  rfl

/-- Counterexample to claim C7 as stated.  The claim recognizes `{x,y,w,h}`
dicts, `{l,t,r,b}` dicts and 4-element sequences, and asserts every other
shape falls back to (100,100); but the code accepts any sequence of
length >= 4 (device.py line 685, `len(bounds) >= 4`), so the 5-element
list [0,0,10,10,99] - an unrecognized shape per the claim - resolves to
(5,5), not (100,100). -/
theorem C7_counterexample :
    get_center_coordinates (.list [.int 0, .int 0, .int 10, .int 10, .int 99])
      = .ok (5, 5)
    ∧ get_center_coordinates (.list [.int 0, .int 0, .int 10, .int 10, .int 99])
      ≠ .ok (100, 100) := by
  refine ⟨by rfl, ?_⟩
  intro hc
  have h1 : get_center_coordinates (.list [.int 0, .int 0, .int 10, .int 10, .int 99])
      = .ok (5, 5) := by rfl
  rw [h1] at hc
  simp at hc

/-- Claim C7 as amended.  A sequence of length >= 4 whose first four
elements are integers a,b,c,d resolves to ((a+c)//2, (b+d)//2) with floor
division - the same formula for both positional interpretations - with any
further elements ignored; sequences shorter than 4, scalars, null, and
dicts lacking both recognized key sets resolve to the hardcoded fallback
(100,100). -/
theorem C7_bounds_shapes_amended :
    (∀ (a b c d : Int) (rest : List UIValue),
      get_center_coordinates (.list (.int a :: .int b :: .int c :: .int d :: rest))
        = .ok (Int.fdiv (a + c) 2, Int.fdiv (b + d) 2))
    ∧ (∀ items : List UIValue, items.length < 4 →
        get_center_coordinates (.list items) = .ok (100, 100))
    ∧ (∀ s : String, get_center_coordinates (.str s) = .ok (100, 100))
    ∧ (∀ n : Int, get_center_coordinates (.int n) = .ok (100, 100))
    ∧ get_center_coordinates .null = .ok (100, 100)
    ∧ (∀ fields, xywhPresent fields = false → ltrbPresent fields = false →
        get_center_coordinates (.dict fields) = .ok (100, 100)) := by
  refine ⟨?_, ?_, ?_, ?_, ?_, ?_⟩
  · intro a b c d rest
    simp [get_center_coordinates, getNumO, getNum, List.get?]
  · intro items hlen
    rw [get_center_coordinates]
    rw [if_neg (by omega)]
  · intro s2
    rfl
  · intro n
    rfl
  · rfl
  · intro fields h1 h2
    rw [get_center_coordinates]
    rw [if_neg (by simp [h1]), if_neg (by simp [h2])]

/-- Witness for the amended C7 at concrete fallback shapes. -/
theorem C7_bounds_shapes_amended_witness :
    (([] : List UIValue).length < 4
      ∧ get_center_coordinates (.list []) = .ok (100, 100))
    ∧ (xywhPresent [("foo", UIValue.int 3)] = false
      ∧ ltrbPresent [("foo", UIValue.int 3)] = false
      ∧ get_center_coordinates (.dict [("foo", UIValue.int 3)]) = .ok (100, 100)) :=
  ⟨⟨by decide, C7_bounds_shapes_amended.2.1 [] (by decide)⟩,
   ⟨rfl, rfl, C7_bounds_shapes_amended.2.2.2.2.2 [("foo", UIValue.int 3)] rfl rfl⟩⟩

/-- Claim C8.  On a connected session, get_device_info returns the dict
built from the colon-bearing lines of the dump (split at the first colon,
key and value stripped; other lines ignored), and looking any key up in
that dict yields the value of the LAST colon-line carrying that key. -/
theorem C8_info_parsing (s : Session) (out k : String) (h : s.connected = true) :
    get_device_info s (.ok out) = .ok (buildInfo (splitLines out))
    ∧ lookupStr (buildInfo (splitLines out)) k = lastValue (splitLines out) k := by
  refine ⟨by simp [get_device_info, h], ?_⟩
  have happ := lookup_buildInfo_aux (splitLines out) [] k
  rcases hl : lastValue (splitLines out) k with _ | w <;>
    rw [hl] at happ <;> simpa [buildInfo, Option.or] using happ

/-- Witness for C8 on a dump with a duplicate key and a colon-free line:
the last value wins. -/
theorem C8_info_parsing_witness :
    sess8.connected = true
    ∧ (get_device_info sess8 (.ok "DeviceName: X\nnocolon\nDeviceName: Y")
        = .ok (buildInfo (splitLines "DeviceName: X\nnocolon\nDeviceName: Y"))
       ∧ lookupStr (buildInfo (splitLines "DeviceName: X\nnocolon\nDeviceName: Y"))
           "DeviceName"
         = lastValue (splitLines "DeviceName: X\nnocolon\nDeviceName: Y") "DeviceName")
    ∧ lastValue (splitLines "DeviceName: X\nnocolon\nDeviceName: Y") "DeviceName"
        = some "Y" :=
  ⟨rfl, C8_info_parsing sess8 "DeviceName: X\nnocolon\nDeviceName: Y" "DeviceName" rfl,
    rfl⟩

/-- Claim C9.  disconnect is total (a pure assignment, it always succeeds):
from every session state it leaves the connected flag false and the cached
record cleared, and applying it twice gives the same state as applying it
once. -/
theorem C9_disconnect_idempotent (s : Session) :
    (disconnect s).connected = false ∧ (disconnect s).device_info = none ∧
      disconnect (disconnect s) = disconnect s := by
  simp [disconnect]

/-- Claim C10.  The session invariant - connected implies a cached record
and a non-empty udid - is preserved by every operation: connect
establishes all three fields together on success and leaves the state
unchanged when it raises, disconnect clears flag and record together, and
every non-lifecycle operation leaves the three session fields exactly as
they were (their method bodies never assign self.udid, self._device_info
or self._connected). -/
theorem C10_session_invariant (op : Op) (s : Session) (hinv : SessionInv s) :
    SessionInv (step op s) ∧ (op.isLifecycle = false → step op s = s) := by
  cases op
  case connectOp env =>
    refine ⟨?_, ?_⟩
    · rcases hc : connect env s with e | s2
      · have hs : step (Op.connectOp env) s = s := by simp [step, hc]
        rw [hs]
        exact hinv
      · have hfields := connect_ok_fields hc
        have hs : step (Op.connectOp env) s = s2 := by simp [step, hc]
        rw [hs]
        intro _
        exact ⟨hfields.2.1, hfields.2.2⟩
    · intro hlc
      simp [Op.isLifecycle] at hlc
  case disconnectOp =>
    refine ⟨?_, ?_⟩
    · intro hcon
      simp [step, disconnect] at hcon
    · intro hlc
      simp [Op.isLifecycle] at hlc
  all_goals exact ⟨hinv, fun _ => rfl⟩

/-- Witness for C10: the fresh session satisfies the invariant and
disconnect preserves it. -/
theorem C10_session_invariant_witness :
    SessionInv sess10
    ∧ (SessionInv (step Op.disconnectOp sess10)
       ∧ (Op.disconnectOp.isLifecycle = false → step Op.disconnectOp sess10 = sess10)) := by
  have h0 : SessionInv sess10 := by
    intro hc
    simp [sess10] at hc
  exact ⟨h0, C10_session_invariant Op.disconnectOp sess10 h0⟩
